import Mathlib

/-!
Verification of the hll_server_status core against its specification.

Shallow embedding of:
  - src/hll_server_status/models.py : the Map identity model and its
    raw-name validator (Map.must_be_valid_map_name).
  - src/hll_server_status/utils.py : the rotation position estimator
    (guess_current_map_rotation_positions, guess_next_map_rotation_positions)
    and the display composers (build_header, build_map_rotation_color).

Python lists become Lean lists, Python strings become Lean strings
(with character-level helpers mirroring re.match and str.replace),
fallible construction becomes Except, and the awaited fetch capability
of the composers is passed in as already-fetched values, matching the
claims which quantify over capabilities that successfully supply data.
-/

deriving instance DecidableEq for Except

namespace HLL

/-- Modelled from the spec: constants.ALL_MAPS is not under src/.  The spec
fixes only that the vocabulary is a fixed enumerated set of valid map
identifiers, containing for example foy_offensive_ger (Scenario E) and not
containing not_a_real_map (section 8).  A representative fixed vocabulary is
used. -/
def ALL_MAPS : List String :=
  ["carentan_warfare", "carentan_offensive_us", "carentan_offensive_ger",
   "foy_warfare", "foy_offensive_ger", "foy_offensive_us",
   "hill400_warfare", "hill400_offensive_us", "hill400_offensive_ger",
   "hurtgenforest_warfare_V2", "kursk_warfare", "kursk_offensive_rus",
   "omahabeach_warfare", "omahabeach_offensive_us",
   "purpleheartlane_warfare", "purpleheartlane_offensive_us",
   "stalingrad_warfare", "stalingrad_offensive_rus",
   "stmereeglise_warfare", "stmereeglise_offensive_ger",
   "utahbeach_warfare", "utahbeach_offensive_us"]

/-- The restart suffix stripped by the validator.  The literal "_RESTART" is
hard-coded in src/hll_server_status/models.py line 51
(v.replace("_RESTART", "")), so constants.MAP_RESTART_SUFFIX must equal it. -/
def MAP_RESTART_SUFFIX : String := "_RESTART"

/-- Modelled from the spec: the literal value of
constants.BETWEEN_MATCHES_MAP_NAME is not under src/.  The spec fixes only
that raw names matching the transitional placeholder pattern normalize to
this sentinel identity, and that re-parsing any normalized identifier (the
sentinel included) is idempotent (section 8); a value that itself matches the
transitional pattern satisfies both. -/
def BETWEEN_MATCHES_MAP_NAME : String := "Untitled_0"

/-- Character-list test that pat occurs at the head of l
(used to mirror the anchored re.match and str.replace scanning). -/
def hasPre : List Char → List Char → Bool
  | [], _ => true
  | _ :: _, [] => false
  | p :: ps, c :: cs => p == c && hasPre ps cs

/-- True when the first character exists and is an ASCII digit. -/
def firstIsDigit : List Char → Bool
  | [] => false
  | c :: _ => c.isDigit

/-- Mirrors re.match(map_change_pattern, v) with
map_change_pattern = Untitled_ followed by one or more digits
(models.py line 38-40).  re.match anchors at the start only, so matching
requires the Untitled_ literal (9 characters) and then at least one digit;
trailing characters are unconstrained. -/
def matches_map_change_pattern (v : String) : Bool :=
  hasPre "Untitled_".data v.data && firstIsDigit (v.data.drop 9)

/-- Left-to-right scan removing every non-overlapping occurrence of the
8-character pattern _RESTART.  The Nat argument is structural-recursion
fuel: every step consumes at least one character, so any fuel of at least
the list length gives the scan semantics of Python str.replace. -/
def removeRestartFuel : Nat → List Char → List Char
  | _, [] => []
  | 0, l => l
  | fuel + 1, c :: cs =>
    if hasPre "_RESTART".data (c :: cs) then removeRestartFuel fuel ((c :: cs).drop 8)
    else c :: removeRestartFuel fuel cs

/-- Mirrors the Python v.replace("_RESTART", "") of models.py line 51. -/
def removeRestart (l : List Char) : List Char :=
  removeRestartFuel l.length l

/-- Embeds Map.must_be_valid_map_name (models.py lines 36-56): the pydantic
validator that normalizes and validates a raw map name.  Raising ValueError
becomes Except.error. -/
def must_be_valid_map_name (v : String) : Except String String :=
  if matches_map_change_pattern v then Except.ok BETWEEN_MATCHES_MAP_NAME
  else
    let restart_maps := ALL_MAPS.map (fun map_name => map_name ++ MAP_RESTART_SUFFIX)
    let v2 := if v ∈ restart_maps then String.mk (removeRestart v.data) else v
    if v2 ∈ ALL_MAPS then Except.ok v2 else Except.error "Invalid Map Name"

/-- Embeds the Map pydantic model (models.py lines 28-63): a validated
RCON map name.  Only the stored raw_name matters to the estimator and
composers. -/
structure Map where
  raw_name : String
deriving DecidableEq, Repr

/-- Constructing a Map runs the validator on the raw name and stores the
normalized value (pydantic validator semantics). -/
def Map.parse (raw : String) : Except String Map :=
  Except.map Map.mk (must_be_valid_map_name raw)

/-- Embeds guess_current_map_rotation_positions (utils.py lines 31-71):
estimate the index(es) of the current map in the rotation from the
current and next map identities. -/
def guess_current_map_rotation_positions
    (rotation : List Map) (current_map next_map : Map) : List Nat :=
  if current_map.raw_name = BETWEEN_MATCHES_MAP_NAME then []
  else
    let raw_names := rotation.map Map.raw_name
    if raw_names.count current_map.raw_name = 1 then
      [raw_names.indexOf current_map.raw_name]
    else
      (raw_names.enum.filter (fun p => p.2 == next_map.raw_name)).map
        (fun p => if p.1 = 0 then raw_names.length - 1 else p.1 - 1)

/-- Embeds guess_next_map_rotation_positions (utils.py lines 78-93):
each next position is the successor of a current position, wrapping the
last index back to 0. -/
def guess_next_map_rotation_positions
    (current_map_positions : List Nat) (rotation : List Map) : List Nat :=
  let rotation_length := rotation.length
  current_map_positions.map
    (fun position => if position = rotation_length - 1 then 0 else position + 1)

/-- Embeds the ServerName pydantic model (models.py lines 21-25). -/
structure ServerName where
  name : String
  short_name : String
deriving DecidableEq

/-- Python f-string rendering of a value of type str or None:
None renders as the four characters None. -/
def pyStr : Option String → String
  | some s => s
  | none => "None"

/-- One name/value field of a Discord embed, as produced by
discord.Embed.add_field. -/
structure EmbedField where
  name : String
  value : String
  inline : Bool
deriving DecidableEq

/-- The parts of discord.Embed that the composers write: title, ordered
fields, footer text, whether a timestamp was set, and an image URL.  The
actual timestamp value is wall-clock input and is modelled as the Boolean
fact that it was set. -/
structure Embed where
  title : Option String := none
  fields : List EmbedField := []
  footer : Option String := none
  timestamp : Bool := false
  image : Option String := none
deriving DecidableEq

/-- Mirrors discord.Embed.add_field: appends a field. -/
def Embed.add_field (e : Embed) (name value : String) (inline : Bool) : Embed :=
  { e with fields := e.fields ++ [{ name := name, value := value, inline := inline }] }

/-- Mirrors discord.Embed.set_footer. -/
def Embed.set_footer (e : Embed) (text : String) : Embed :=
  { e with footer := some text }

/-- Embeds DisplayFooterConfig (models.py lines 175-179). -/
structure DisplayFooterConfig where
  enabled : Bool
  footer_text : Option String
  include_timestamp : Bool
  last_refresh_text : Option String
deriving DecidableEq

/-- Embeds DisplayEmbedConfig (models.py lines 149-159): one configured
header embed field; its value selects which auxiliary endpoint feeds it. -/
structure DisplayEmbedConfig where
  name : String
  value : String
  inline : Bool
deriving DecidableEq

/-- Embeds DisplayHeaderConfig (models.py lines 182-207).  The
time_between_refreshes cadence is consumed by the external scheduler, not
by the renderer, and URL fields already validated to None-or-nonempty are
modelled as Option String. -/
structure DisplayHeaderConfig where
  enabled : Bool
  time_between_refreshes : Nat
  server_name : String
  quick_connect_name : String
  quick_connect_url : Option String
  battlemetrics_name : String
  battlemetrics_url : Option String
  embeds : Option (List DisplayEmbedConfig)
  footer : DisplayFooterConfig
deriving DecidableEq

/-- Embeds the body of build_header up to the footer block (utils.py lines
135-166).  The awaited get_api_result calls and their parsers are supplied
as values: server_name is the parsed get_status result, and api_value gives
the parsed string for each configured auxiliary embed selector.  Mirrors
the source statement by statement: title selection by match on the
configured name variant, optional quick-connect and battlemetrics URL
fields, then the configured embed fields in order. -/
def header_embed_pre (config : DisplayHeaderConfig) (server_name : ServerName)
    (api_value : String → String) : Embed :=
  let header_embed : Embed := {}
  let header_embed :=
    match config.server_name with
    | "name" => { header_embed with title := some server_name.name }
    | "short_name" => { header_embed with title := some server_name.short_name }
    | _ => header_embed
  let header_embed :=
    match config.quick_connect_url with
    | some url => header_embed.add_field config.quick_connect_name url false
    | none => header_embed
  let header_embed :=
    match config.battlemetrics_url with
    | some url => header_embed.add_field config.battlemetrics_name url false
    | none => header_embed
  match config.embeds with
  | some options =>
      options.foldl
        (fun e option => e.add_field option.name (api_value option.value) option.inline)
        header_embed
  | none => header_embed

/-- Embeds build_header (utils.py lines 114-177): the fields built by
header_embed_pre followed by the footer block of lines 168-177, in which
set_footer is reached only inside the include_timestamp branch and only
when the accumulated footer text is non-empty (Python string truthiness),
and the timestamp is set whenever include_timestamp is on. -/
def build_header (config : DisplayHeaderConfig) (server_name : ServerName)
    (api_value : String → String) : Option String × Embed :=
  let header_embed := header_embed_pre config server_name api_value
  let footer_text :=
    if config.footer.enabled then
      pyStr config.footer.footer_text ++ pyStr config.footer.last_refresh_text
    else ""
  let header_embed :=
    if config.footer.include_timestamp then
      { (if footer_text ≠ "" then header_embed.set_footer footer_text else header_embed) with
          timestamp := true }
    else header_embed
  (none, header_embed)

/-- A concrete parsed get_status result, used for concrete renders. -/
def sample_server_name : ServerName :=
  { name := "Some Hell Let Loose Server", short_name := "HLL" }

/-- A concrete fetch capability for the auxiliary header embeds: every
selector parses to the empty string. -/
def no_api_values : String → String := fun _ => ""

/-- A concrete header configuration whose footer is enabled with non-empty
text but whose include_timestamp toggle is off. -/
def header_footer_no_timestamp_config : DisplayHeaderConfig :=
  { enabled := true
    time_between_refreshes := 60
    server_name := "name"
    quick_connect_name := "Quick Connect"
    quick_connect_url := none
    battlemetrics_name := "BattleMetrics"
    battlemetrics_url := none
    embeds := none
    footer :=
      { enabled := true
        footer_text := some "Status updates every minute "
        include_timestamp := false
        last_refresh_text := some "Last refreshed" } }

/-- The same header configuration with the include_timestamp toggle on. -/
def header_footer_with_timestamp_config : DisplayHeaderConfig :=
  { header_footer_no_timestamp_config with
      footer :=
        { enabled := true
          footer_text := some "Status updates every minute "
          include_timestamp := true
          last_refresh_text := some "Last refreshed" } }

/-- Embeds DisplayMapRotationColorConfig (models.py lines 222-242). -/
structure DisplayMapRotationColorConfig where
  enabled : Bool
  time_between_refreshes : Nat
  display_title : Bool
  title : String
  current_map_color : String
  next_map_color : String
  other_map_color : String
  display_legend : Bool
  legend_title : String
  legend : List String
  display_last_refreshed : Bool
  last_refresh_text : String
deriving DecidableEq

/-- Embeds build_map_rotation_color (utils.py lines 252-323).  The function
body begins, before any fetch, with three stray logging calls and a bare
raise Exception (lines 259-262); everything from line 263 on, including the
fetches, the estimator calls and the color-block rendering, is unreachable.
The rotation and game state the unreachable part would fetch are supplied
as values, matching the signature the claims quantify over; the raise is
Except.error. -/
def build_map_rotation_color (config : DisplayMapRotationColorConfig)
    (map_rotation : List Map) (current_map next_map : Map) :
    Except Unit (Option String × Option Embed) :=
  Except.error ()

end HLL

namespace HLL

/-- Helper: in the non-sentinel branch, when the current map does not occur
exactly once, the estimator output is the enumerate-filter-map pipeline of
utils.py lines 53-71 over the occurrences of the next map. -/
theorem guess_current_else_eq (rotation : List Map) (current_map next_map : Map)
    (hs : current_map.raw_name ≠ BETWEEN_MATCHES_MAP_NAME)
    (hc : (rotation.map Map.raw_name).count current_map.raw_name ≠ 1) :
    guess_current_map_rotation_positions rotation current_map next_map =
      ((rotation.map Map.raw_name).enum.filter (fun p => p.2 == next_map.raw_name)).map
        (fun p => if p.1 = 0 then rotation.length - 1 else p.1 - 1) := by
  simp only [guess_current_map_rotation_positions, if_neg hs, if_neg hc, List.length_map]

/-- Helper: membership characterization of the next-map based estimation
branch. -/
theorem mem_guess_current_else {rotation : List Map} {current_map next_map : Map}
    (hs : current_map.raw_name ≠ BETWEEN_MATCHES_MAP_NAME)
    (hc : (rotation.map Map.raw_name).count current_map.raw_name ≠ 1) (j : Nat) :
    j ∈ guess_current_map_rotation_positions rotation current_map next_map ↔
      ∃ i, ∃ h : i < rotation.length,
        (rotation.get ⟨i, h⟩).raw_name = next_map.raw_name ∧
        j = if i = 0 then rotation.length - 1 else i - 1 := by
  rw [guess_current_else_eq rotation current_map next_map hs hc]
  simp only [List.mem_map, List.mem_filter, List.mem_enum_iff_getElem?, beq_iff_eq,
    List.getElem?_eq_some, List.length_map, List.getElem_map, Prod.exists, List.get_eq_getElem]
  constructor
  · rintro ⟨i, b, ⟨⟨h, hg⟩, hb⟩, hw⟩
    exact ⟨i, h, by rw [hg, hb], hw.symm⟩
  · rintro ⟨i, h, hb, rfl⟩
    exact ⟨i, (rotation[i]).raw_name, ⟨⟨h, rfl⟩, hb⟩, rfl⟩

/-- Helper: the next-map based estimation branch produces no duplicate
indices, because taking the wrapped predecessor is injective on valid
indices. -/
theorem nodup_guess_current_else {rotation : List Map} {current_map next_map : Map}
    (hs : current_map.raw_name ≠ BETWEEN_MATCHES_MAP_NAME)
    (hc : (rotation.map Map.raw_name).count current_map.raw_name ≠ 1) :
    (guess_current_map_rotation_positions rotation current_map next_map).Nodup := by
  rw [guess_current_else_eq rotation current_map next_map hs hc]
  apply List.Nodup.map_on
  · intro x hx y hy hxy
    rw [List.mem_filter] at hx hy
    have ex := List.mem_enum_iff_getElem?.1 hx.1
    have ey := List.mem_enum_iff_getElem?.1 hy.1
    obtain ⟨hx1, hx2⟩ := List.getElem?_eq_some.1 ex
    obtain ⟨hy1, hy2⟩ := List.getElem?_eq_some.1 ey
    rw [List.length_map] at hx1 hy1
    have h1 : x.1 = y.1 := by split_ifs at hxy <;> omega
    have h2 : x.2 = y.2 := by
      rw [h1] at ex
      rw [ex] at ey
      exact Option.some_injective _ ey
    exact Prod.ext h1 h2
  · exact (List.Nodup.of_map Prod.fst (List.nodup_enum_map_fst (rotation.map Map.raw_name))).filter _


/-- C2: for a rotation in which the current map identity occurs more than
once (and is not the sentinel), the estimated current positions are exactly
the wrapped predecessor indices of the occurrences of the next map
identity: an index j is returned precisely when some occurrence of the next
map at index i yields j as i - 1, or the last index when i = 0; the result
has no duplicates, so as a set it is exactly the collected candidates. -/
theorem guess_current_duplicate_wrapped_preds
    (rotation : List Map) (current_map next_map : Map)
    (hs : current_map.raw_name ≠ BETWEEN_MATCHES_MAP_NAME)
    (hdup : 1 < (rotation.map Map.raw_name).count current_map.raw_name) :
    (∀ j, j ∈ guess_current_map_rotation_positions rotation current_map next_map ↔
      ∃ i, ∃ h : i < rotation.length,
        (rotation.get ⟨i, h⟩).raw_name = next_map.raw_name ∧
        j = if i = 0 then rotation.length - 1 else i - 1) ∧
    (guess_current_map_rotation_positions rotation current_map next_map).Nodup := by
  have hc : (rotation.map Map.raw_name).count current_map.raw_name ≠ 1 := by omega
  exact ⟨fun j => mem_guess_current_else hs hc j, nodup_guess_current_else hs hc⟩

/-- C2 witness: rotation [A, B, A, B] with current = A, next = B gives
current positions [0, 2], matching Scenario D. -/
theorem guess_current_duplicate_wrapped_preds_witness :
    ((⟨"foy_warfare"⟩ : Map).raw_name ≠ BETWEEN_MATCHES_MAP_NAME ∧
      1 < (([⟨"foy_warfare"⟩, ⟨"utahbeach_warfare"⟩, ⟨"foy_warfare"⟩,
            ⟨"utahbeach_warfare"⟩] : List Map).map Map.raw_name).count "foy_warfare") ∧
    guess_current_map_rotation_positions
      [⟨"foy_warfare"⟩, ⟨"utahbeach_warfare"⟩, ⟨"foy_warfare"⟩, ⟨"utahbeach_warfare"⟩]
      ⟨"foy_warfare"⟩ ⟨"utahbeach_warfare"⟩ = [0, 2] ∧
    (guess_current_map_rotation_positions
      [⟨"foy_warfare"⟩, ⟨"utahbeach_warfare"⟩, ⟨"foy_warfare"⟩, ⟨"utahbeach_warfare"⟩]
      ⟨"foy_warfare"⟩ ⟨"utahbeach_warfare"⟩).Nodup :=
  ⟨⟨by decide, by decide⟩, by decide,
    (guess_current_duplicate_wrapped_preds
      [⟨"foy_warfare"⟩, ⟨"utahbeach_warfare"⟩, ⟨"foy_warfare"⟩, ⟨"utahbeach_warfare"⟩]
      ⟨"foy_warfare"⟩ ⟨"utahbeach_warfare"⟩ (by decide) (by decide)).2⟩

/-- C3: for a rotation with no duplicate entries and a non-sentinel current
map identity occurring in it, the estimator returns exactly one current
position, the unique index of the rotation entry equal to the current map
identity. -/
theorem guess_current_nodup_unique
    (rotation : List Map) (current_map next_map : Map)
    (hnd : (rotation.map Map.raw_name).Nodup)
    (hs : current_map.raw_name ≠ BETWEEN_MATCHES_MAP_NAME)
    (hm : current_map.raw_name ∈ rotation.map Map.raw_name) :
    ∃ i, ∃ h : i < rotation.length,
      guess_current_map_rotation_positions rotation current_map next_map = [i] ∧
      (rotation.get ⟨i, h⟩).raw_name = current_map.raw_name ∧
      ∀ j, ∀ hj : j < rotation.length,
        (rotation.get ⟨j, hj⟩).raw_name = current_map.raw_name → j = i := by
  have hcount : (rotation.map Map.raw_name).count current_map.raw_name = 1 :=
    List.count_eq_one_of_mem hnd hm
  have hlt : (rotation.map Map.raw_name).indexOf current_map.raw_name <
      (rotation.map Map.raw_name).length := List.indexOf_lt_length.2 hm
  rw [List.length_map] at hlt
  refine ⟨(rotation.map Map.raw_name).indexOf current_map.raw_name, hlt, ?_, ?_, ?_⟩
  · simp only [guess_current_map_rotation_positions, if_neg hs, if_pos hcount]
  · have h0 := List.getElem_indexOf (a := current_map.raw_name)
      (l := rotation.map Map.raw_name) (by rw [List.length_map]; exact hlt)
    rw [List.getElem_map] at h0
    simpa only [List.get_eq_getElem] using h0
  · intro j hj hjeq
    have hinj := List.nodup_iff_injective_get.1 hnd
    have h1 : (rotation.map Map.raw_name).get ⟨j, by rw [List.length_map]; exact hj⟩ =
        current_map.raw_name := by
      simp only [List.get_eq_getElem, List.getElem_map]
      simpa only [List.get_eq_getElem] using hjeq
    have h2 : (rotation.map Map.raw_name).get
        ⟨(rotation.map Map.raw_name).indexOf current_map.raw_name,
          by rw [List.length_map]; exact hlt⟩ = current_map.raw_name := by
      simp only [List.get_eq_getElem]
      exact List.getElem_indexOf (a := current_map.raw_name)
        (l := rotation.map Map.raw_name) (by rw [List.length_map]; exact hlt)
    have hfin := hinj (h1.trans h2.symm)
    exact congrArg Fin.val hfin

/-- C3 witness: the duplicate-free rotation [foy_warfare, utahbeach_warfare]
with current = foy_warfare has the single current position 0. -/
theorem guess_current_nodup_unique_witness :
    ((([⟨"foy_warfare"⟩, ⟨"utahbeach_warfare"⟩] : List Map).map Map.raw_name).Nodup ∧
      (⟨"foy_warfare"⟩ : Map).raw_name ≠ BETWEEN_MATCHES_MAP_NAME ∧
      (⟨"foy_warfare"⟩ : Map).raw_name ∈
        ([⟨"foy_warfare"⟩, ⟨"utahbeach_warfare"⟩] : List Map).map Map.raw_name) ∧
    (∃ i, ∃ h : i < ([⟨"foy_warfare"⟩, ⟨"utahbeach_warfare"⟩] : List Map).length,
      guess_current_map_rotation_positions [⟨"foy_warfare"⟩, ⟨"utahbeach_warfare"⟩]
        ⟨"foy_warfare"⟩ ⟨"utahbeach_warfare"⟩ = [i] ∧
      (([⟨"foy_warfare"⟩, ⟨"utahbeach_warfare"⟩] : List Map).get ⟨i, h⟩).raw_name =
        (⟨"foy_warfare"⟩ : Map).raw_name ∧
      ∀ j, ∀ hj : j < ([⟨"foy_warfare"⟩, ⟨"utahbeach_warfare"⟩] : List Map).length,
        (([⟨"foy_warfare"⟩, ⟨"utahbeach_warfare"⟩] : List Map).get ⟨j, hj⟩).raw_name =
          (⟨"foy_warfare"⟩ : Map).raw_name → j = i) :=
  ⟨⟨by decide, by decide, by decide⟩,
    guess_current_nodup_unique [⟨"foy_warfare"⟩, ⟨"utahbeach_warfare"⟩]
      ⟨"foy_warfare"⟩ ⟨"utahbeach_warfare"⟩ (by decide) (by decide) (by decide)⟩


/-- C4: for a non-empty rotation and current positions that are valid
indices, the next positions are the elementwise successors modulo the
rotation length, hence a list of the same length and order. -/
theorem guess_next_succ_mod (rotation : List Map) (current_map_positions : List Nat)
    (hne : rotation ≠ [])
    (hv : ∀ p ∈ current_map_positions, p < rotation.length) :
    guess_next_map_rotation_positions current_map_positions rotation =
      current_map_positions.map (fun p => (p + 1) % rotation.length) ∧
    (guess_next_map_rotation_positions current_map_positions rotation).length =
      current_map_positions.length := by
  have hlen : 0 < rotation.length := List.length_pos.2 hne
  have hmap : guess_next_map_rotation_positions current_map_positions rotation =
      current_map_positions.map (fun p => (p + 1) % rotation.length) := by
    unfold guess_next_map_rotation_positions
    induction current_map_positions with
    | nil => rfl
    | cons p ps ih =>
      have hp : p < rotation.length := hv p (List.mem_cons_self p ps)
      have hrest : ∀ q ∈ ps, q < rotation.length := fun q hq => hv q (List.mem_cons_of_mem p hq)
      simp only [List.map_cons]
      refine congrArg₂ List.cons ?_ (ih hrest)
      by_cases hlast : p = rotation.length - 1
      · rw [if_pos hlast]
        have hp1 : p + 1 = rotation.length := by omega
        rw [hp1, Nat.mod_self]
      · rw [if_neg hlast, Nat.mod_eq_of_lt (by omega)]
  exact ⟨hmap, by rw [hmap, List.length_map]⟩

/-- C4 witness: current positions [0, 2] in a rotation of length 3 give next
positions [1, 0], the successors modulo 3. -/
theorem guess_next_succ_mod_witness :
    (([⟨"foy_warfare"⟩, ⟨"utahbeach_warfare"⟩, ⟨"foy_warfare"⟩] : List Map) ≠ [] ∧
      (∀ p ∈ [0, 2], p < ([⟨"foy_warfare"⟩, ⟨"utahbeach_warfare"⟩, ⟨"foy_warfare"⟩] :
        List Map).length)) ∧
    guess_next_map_rotation_positions [0, 2]
        [⟨"foy_warfare"⟩, ⟨"utahbeach_warfare"⟩, ⟨"foy_warfare"⟩] =
      [0, 2].map (fun p => (p + 1) %
        ([⟨"foy_warfare"⟩, ⟨"utahbeach_warfare"⟩, ⟨"foy_warfare"⟩] : List Map).length) ∧
    (guess_next_map_rotation_positions [0, 2]
        [⟨"foy_warfare"⟩, ⟨"utahbeach_warfare"⟩, ⟨"foy_warfare"⟩]).length = ([0, 2] : List Nat).length :=
  ⟨⟨by decide, by decide⟩,
    guess_next_succ_mod [⟨"foy_warfare"⟩, ⟨"utahbeach_warfare"⟩, ⟨"foy_warfare"⟩] [0, 2]
      (by decide) (by decide)⟩

/-- C5: when the current map identity is the sentinel between-matches
identity, the estimated current positions are empty and the next positions
computed from them are empty too. -/
theorem between_matches_positions_empty (rotation : List Map) (current_map next_map : Map)
    (hs : current_map.raw_name = BETWEEN_MATCHES_MAP_NAME) :
    guess_current_map_rotation_positions rotation current_map next_map = [] ∧
    guess_next_map_rotation_positions
      (guess_current_map_rotation_positions rotation current_map next_map) rotation = [] := by
  have h1 : guess_current_map_rotation_positions rotation current_map next_map = [] := by
    simp only [guess_current_map_rotation_positions, if_pos hs]
  exact ⟨h1, by rw [h1]; rfl⟩

/-- C5 witness: a concrete two-entry rotation with the sentinel as current
map gives empty current and next position lists. -/
theorem between_matches_positions_empty_witness :
    (Map.mk BETWEEN_MATCHES_MAP_NAME).raw_name = BETWEEN_MATCHES_MAP_NAME ∧
    guess_current_map_rotation_positions [⟨"foy_warfare"⟩, ⟨"utahbeach_warfare"⟩]
      (Map.mk BETWEEN_MATCHES_MAP_NAME) ⟨"utahbeach_warfare"⟩ = [] ∧
    guess_next_map_rotation_positions
      (guess_current_map_rotation_positions [⟨"foy_warfare"⟩, ⟨"utahbeach_warfare"⟩]
        (Map.mk BETWEEN_MATCHES_MAP_NAME) ⟨"utahbeach_warfare"⟩)
      [⟨"foy_warfare"⟩, ⟨"utahbeach_warfare"⟩] = [] :=
  ⟨rfl, (between_matches_positions_empty [⟨"foy_warfare"⟩, ⟨"utahbeach_warfare"⟩]
      (Map.mk BETWEEN_MATCHES_MAP_NAME) ⟨"utahbeach_warfare"⟩ rfl).1,
    (between_matches_positions_empty [⟨"foy_warfare"⟩, ⟨"utahbeach_warfare"⟩]
      (Map.mk BETWEEN_MATCHES_MAP_NAME) ⟨"utahbeach_warfare"⟩ rfl).2⟩

/-- C10: when the non-sentinel current map identity occurs zero times in
the rotation, the estimator falls through to the next-map branch: it
returns exactly the wrapped predecessor indices of the occurrences of the
next map identity, the result is empty exactly when the next map identity
is absent from the rotation, and every returned index is a valid rotation
index. -/
theorem guess_current_absent_falls_through
    (rotation : List Map) (current_map next_map : Map)
    (hs : current_map.raw_name ≠ BETWEEN_MATCHES_MAP_NAME)
    (habs : (rotation.map Map.raw_name).count current_map.raw_name = 0) :
    (∀ j, j ∈ guess_current_map_rotation_positions rotation current_map next_map ↔
      ∃ i, ∃ h : i < rotation.length,
        (rotation.get ⟨i, h⟩).raw_name = next_map.raw_name ∧
        j = if i = 0 then rotation.length - 1 else i - 1) ∧
    (guess_current_map_rotation_positions rotation current_map next_map = [] ↔
      next_map.raw_name ∉ rotation.map Map.raw_name) ∧
    (∀ j ∈ guess_current_map_rotation_positions rotation current_map next_map,
      j < rotation.length) := by
  have hc : (rotation.map Map.raw_name).count current_map.raw_name ≠ 1 := by omega
  have hmem := fun j => @mem_guess_current_else rotation current_map next_map hs hc j
  refine ⟨hmem, ?_, ?_⟩
  · constructor
    · intro hempty hnmem
      rw [List.mem_map] at hnmem
      obtain ⟨m, hm, hmeq⟩ := hnmem
      obtain ⟨⟨iv, ivlt⟩, hieq⟩ := List.mem_iff_get.1 hm
      have : (if iv = 0 then rotation.length - 1 else iv - 1) ∈
          guess_current_map_rotation_positions rotation current_map next_map :=
        (hmem _).2 ⟨iv, ivlt, by rw [hieq, hmeq], rfl⟩
      rw [hempty] at this
      exact List.not_mem_nil _ this
    · intro hnmem
      by_contra hne
      obtain ⟨j, hj⟩ := List.exists_mem_of_ne_nil _ hne
      obtain ⟨i, hi, hieq, _⟩ := (hmem j).1 hj
      exact hnmem (List.mem_map.2 ⟨rotation.get ⟨i, hi⟩, List.get_mem _ _ hi, hieq⟩)
  · intro j hj
    obtain ⟨i, hi, _, hjw⟩ := (hmem j).1 hj
    subst hjw
    split <;> omega

/-- C10 witness: with current = hill400_warfare absent from the rotation
[foy_warfare, utahbeach_warfare] and next = utahbeach_warfare, the
estimator returns the non-empty position list [0], which points at
foy_warfare, a map different from the current one. -/
theorem guess_current_absent_falls_through_witness :
    ((⟨"hill400_warfare"⟩ : Map).raw_name ≠ BETWEEN_MATCHES_MAP_NAME ∧
      (([⟨"foy_warfare"⟩, ⟨"utahbeach_warfare"⟩] : List Map).map Map.raw_name).count
        (⟨"hill400_warfare"⟩ : Map).raw_name = 0) ∧
    guess_current_map_rotation_positions [⟨"foy_warfare"⟩, ⟨"utahbeach_warfare"⟩]
      ⟨"hill400_warfare"⟩ ⟨"utahbeach_warfare"⟩ = [0] ∧
    (guess_current_map_rotation_positions [⟨"foy_warfare"⟩, ⟨"utahbeach_warfare"⟩]
        ⟨"hill400_warfare"⟩ ⟨"utahbeach_warfare"⟩ = [] ↔
      (⟨"utahbeach_warfare"⟩ : Map).raw_name ∉
        ([⟨"foy_warfare"⟩, ⟨"utahbeach_warfare"⟩] : List Map).map Map.raw_name) :=
  ⟨⟨by decide, by decide⟩, by decide,
    (guess_current_absent_falls_through [⟨"foy_warfare"⟩, ⟨"utahbeach_warfare"⟩]
      ⟨"hill400_warfare"⟩ ⟨"utahbeach_warfare"⟩ (by decide) (by decide)).2.1⟩


/-- Helper: every name of the map vocabulary parses to itself. -/
theorem must_be_valid_of_mem_all_maps :
    ∀ x ∈ ALL_MAPS, must_be_valid_map_name x = Except.ok x := by decide

/-- C6: for every known map name m, parsing m followed by the restart
suffix succeeds with raw identifier m (the suffix-stripped normalized
form), and every raw identifier matching the transitional placeholder
pattern parses to the sentinel between-matches identity. -/
theorem parse_restart_and_transitional (m : String) (hm : m ∈ ALL_MAPS)
    (v : String) (hv : matches_map_change_pattern v = true) :
    Map.parse (m ++ MAP_RESTART_SUFFIX) = Except.ok ⟨m⟩ ∧
    Map.parse v = Except.ok ⟨BETWEEN_MATCHES_MAP_NAME⟩ := by
  constructor
  · have key : ∀ x ∈ ALL_MAPS, Map.parse (x ++ MAP_RESTART_SUFFIX) = Except.ok ⟨x⟩ := by decide
    exact key m hm
  · unfold Map.parse must_be_valid_map_name
    rw [if_pos hv]
    rfl

/-- C6 witness: foy_offensive_ger_RESTART parses to foy_offensive_ger, and
the transitional placeholder Untitled_42 parses to the sentinel identity. -/
theorem parse_restart_and_transitional_witness :
    ("foy_offensive_ger" ∈ ALL_MAPS ∧
      matches_map_change_pattern "Untitled_42" = true) ∧
    Map.parse ("foy_offensive_ger" ++ MAP_RESTART_SUFFIX) = Except.ok ⟨"foy_offensive_ger"⟩ ∧
    Map.parse "Untitled_42" = Except.ok ⟨BETWEEN_MATCHES_MAP_NAME⟩ :=
  ⟨⟨by decide, by decide⟩,
    (parse_restart_and_transitional "foy_offensive_ger" (by decide)
      "Untitled_42" (by decide)).1,
    (parse_restart_and_transitional "foy_offensive_ger" (by decide)
      "Untitled_42" (by decide)).2⟩

/-- Helper: string-level idempotence of the validator. -/
theorem must_be_valid_idempotent (r n : String)
    (h : must_be_valid_map_name r = Except.ok n) :
    must_be_valid_map_name n = Except.ok n := by
  simp only [must_be_valid_map_name] at h
  by_cases h1 : matches_map_change_pattern r = true
  · rw [if_pos h1] at h
    cases h
    decide
  · rw [if_neg h1] at h
    by_cases h2 : (if r ∈ ALL_MAPS.map (fun map_name => map_name ++ MAP_RESTART_SUFFIX)
        then String.mk (removeRestart r.data) else r) ∈ ALL_MAPS
    · rw [if_pos h2] at h
      have hn := Except.ok.inj h
      subst hn
      exact must_be_valid_of_mem_all_maps _ h2
    · rw [if_neg h2] at h
      cases h

/-- C7: parsing is idempotent: whenever parsing a raw string succeeds with
some Map identity, re-parsing that identity raw identifier succeeds and
yields the identical Map identity. -/
theorem Map_parse_idempotent (r : String) (M : Map) (h : Map.parse r = Except.ok M) :
    Map.parse M.raw_name = Except.ok M := by
  unfold Map.parse at h ⊢
  cases hm : must_be_valid_map_name r with
  | error e => rw [hm] at h; cases h
  | ok n =>
    rw [hm] at h
    cases h
    rw [must_be_valid_idempotent r n hm]
    rfl

/-- C7 witness: idempotence applied at the restart-suffixed name
foy_offensive_ger_RESTART and at the transitional placeholder Untitled_42,
whose normalized identifier is the sentinel identity. -/
theorem Map_parse_idempotent_witness :
    Map.parse "foy_offensive_ger_RESTART" = Except.ok ⟨"foy_offensive_ger"⟩ ∧
    Map.parse (Map.raw_name ⟨"foy_offensive_ger"⟩) = Except.ok ⟨"foy_offensive_ger"⟩ ∧
    Map.parse "Untitled_42" = Except.ok ⟨BETWEEN_MATCHES_MAP_NAME⟩ ∧
    Map.parse (Map.raw_name ⟨BETWEEN_MATCHES_MAP_NAME⟩) = Except.ok ⟨BETWEEN_MATCHES_MAP_NAME⟩ :=
  ⟨by decide, Map_parse_idempotent "foy_offensive_ger_RESTART" ⟨"foy_offensive_ger"⟩ (by decide),
    by decide, Map_parse_idempotent "Untitled_42" ⟨BETWEEN_MATCHES_MAP_NAME⟩ (by decide)⟩

/-- C8: a raw string outside the known vocabulary that neither matches the
transitional placeholder pattern nor is a known map name followed by the
restart suffix fails to parse with the Invalid Map Name error. -/
theorem parse_invalid_fails (v : String)
    (h1 : matches_map_change_pattern v = false)
    (h2 : v ∉ ALL_MAPS)
    (h3 : v ∉ ALL_MAPS.map (fun map_name => map_name ++ MAP_RESTART_SUFFIX)) :
    Map.parse v = Except.error "Invalid Map Name" := by
  unfold Map.parse must_be_valid_map_name
  rw [if_neg (by rw [h1]; exact Bool.false_ne_true)]
  simp only [if_neg h3, if_neg h2]
  rfl

/-- C8 witness: not_a_real_map satisfies all three exclusions and fails to
parse. -/
theorem parse_invalid_fails_witness :
    (matches_map_change_pattern "not_a_real_map" = false ∧
      "not_a_real_map" ∉ ALL_MAPS ∧
      "not_a_real_map" ∉ ALL_MAPS.map (fun map_name => map_name ++ MAP_RESTART_SUFFIX)) ∧
    Map.parse "not_a_real_map" = Except.error "Invalid Map Name" :=
  ⟨⟨by decide, by decide, by decide⟩,
    parse_invalid_fails "not_a_real_map" (by decide) (by decide) (by decide)⟩

end HLL

namespace HLL

/-- Helper: the embed built before the footer block carries no footer. -/
theorem header_embed_pre_footer (config : DisplayHeaderConfig) (server_name : ServerName)
    (api_value : String → String) :
    (header_embed_pre config server_name api_value).footer = none := by
  have h1 : ∀ (opts : List DisplayEmbedConfig) (e : Embed),
      (List.foldl
        (fun e option => e.add_field option.name (api_value option.value) option.inline)
        e opts).footer = e.footer := by
    intro opts
    induction opts with
    | nil => intro e; rfl
    | cons o os ih =>
      intro e
      rw [List.foldl_cons, ih]
      rfl
  simp only [header_embed_pre]
  split
  · rw [h1]
    split <;> split <;> split <;> rfl
  · split <;> split <;> split <;> rfl

/-- C9 amended: the header renderer attaches the footer text (footer_text
followed by last_refresh_text, with missing values rendered as None) only
when the include_timestamp toggle is set and the text is non-empty; when
include_timestamp is off, no footer is attached even if the footer is
enabled with non-empty text. -/
theorem build_header_footer_only_with_timestamp
    (config : DisplayHeaderConfig) (server_name : ServerName) (api_value : String → String) :
    (config.footer.include_timestamp = false →
      (build_header config server_name api_value).2.footer = none) ∧
    (config.footer.enabled = true → config.footer.include_timestamp = true →
      pyStr config.footer.footer_text ++ pyStr config.footer.last_refresh_text ≠ "" →
      (build_header config server_name api_value).2.footer =
        some (pyStr config.footer.footer_text ++ pyStr config.footer.last_refresh_text)) := by
  constructor
  · intro hts
    simp only [build_header]
    rw [if_neg (by rw [hts]; exact Bool.false_ne_true)]
    exact header_embed_pre_footer config server_name api_value
  · intro hen hts hne
    simp only [build_header, hts, hen, if_true]
    rw [if_pos hne]
    rfl

/-- C9 witness: with the footer enabled, non-empty text and the timestamp
toggle on, the rendered header carries the concatenated footer text. -/
theorem build_header_footer_only_with_timestamp_witness :
    (header_footer_with_timestamp_config.footer.enabled = true ∧
      header_footer_with_timestamp_config.footer.include_timestamp = true ∧
      pyStr header_footer_with_timestamp_config.footer.footer_text ++
        pyStr header_footer_with_timestamp_config.footer.last_refresh_text ≠ "") ∧
    (build_header header_footer_with_timestamp_config sample_server_name no_api_values).2.footer =
      some (pyStr header_footer_with_timestamp_config.footer.footer_text ++
        pyStr header_footer_with_timestamp_config.footer.last_refresh_text) :=
  ⟨⟨rfl, rfl, by decide⟩,
    (build_header_footer_only_with_timestamp header_footer_with_timestamp_config
      sample_server_name no_api_values).2 rfl rfl (by decide)⟩

/-- C9 counterexample: a header configuration whose footer is enabled with
non-empty text but whose include_timestamp toggle is off renders an embed
with no footer at all, refuting the claim that the footer text is attached
whether or not the include_timestamp toggle is set. -/
theorem build_header_footer_dropped_without_timestamp :
    header_footer_no_timestamp_config.footer.enabled = true ∧
    header_footer_no_timestamp_config.footer.include_timestamp = false ∧
    pyStr header_footer_no_timestamp_config.footer.footer_text ++
      pyStr header_footer_no_timestamp_config.footer.last_refresh_text ≠ "" ∧
    (build_header header_footer_no_timestamp_config sample_server_name no_api_values).2.footer =
      none := by
  exact ⟨rfl, rfl, by decide, by decide⟩

/-- C1: the rotation color-block renderer never returns the claimed
populated text component: for every configuration and every successfully
supplied rotation and game state it raises (the bare raise Exception left
at utils.py lines 259-262 precedes all fetching and rendering), so the
call always errors instead of producing a pair with populated text and
null embed. -/
theorem build_map_rotation_color_always_raises
    (config : DisplayMapRotationColorConfig) (map_rotation : List Map)
    (current_map next_map : Map) :
    build_map_rotation_color config map_rotation current_map next_map = Except.error () := rfl

end HLL
